import Mathlib

/-!
# cdidc: command-line front end of libdiscid

A shallow embedding of `src/cdidc.c`.  The program parses its options with
getopt, asks libdiscid to read the disc, prints the MusicBrainz and CDDB
identifiers and optionally forks a browser on the submission URL.

Everything outside the file (libdiscid, getopt, gettext, fork, execvp) is an
input of the model, collected in `Env`.  A run of one process is a list of
`Event`s in program order together with the exit status of that process.
Standard I/O is modelled unbuffered: every printf, puts and dprintf is a write
on a file descriptor at the point of the call.
-/

set_option maxRecDepth 20000

namespace Cdidc

/-! ## Files, descriptors and events -/

/-- Open files a descriptor can refer to.  The first three are the files the
process was started with. -/
inductive File where
  | stdin
  | stdout
  | stderr
  | devnull
  deriving DecidableEq, Repr

/-- Observable steps of one process, in program order. -/
inductive Event where
  | setlocale
  | bindtextdomain
  | textdomain
  | discid_get_default_device
  | discid_new
  | discid_read_sparse (device : String)
  | discid_get_error_msg
  | discid_free
  | discid_get_id
  | discid_get_submission_url
  | discid_get_freedb_id
  | fork (result : Int)
  | dup (oldfd : Int) (result : Int)
  | close (fd : Int)
  | open_ (path : String) (writable : Bool) (result : Int)
  | execvp (file : String) (argv : List String)
  | write (file : File) (s : String)
  | write_failed (fd : Int) (s : String)
  deriving DecidableEq, Repr

/-- State of one process: the descriptor table (index = descriptor number, the
flag says whether the descriptor was opened for writing) and the events so
far. -/
structure Proc where
  fds : List (Option (File × Bool))
  trace : List Event
  deriving Repr

/-- Process state at program start: descriptors 0, 1 and 2 are the standard
streams. -/
def Proc.init : Proc :=
  { fds := [some (File.stdin, false), some (File.stdout, true), some (File.stderr, true)]
    trace := [] }

/-- Append one event to the trace. -/
def Proc.emit (p : Proc) (e : Event) : Proc :=
  { p with trace := p.trace ++ [e] }

/-- Entry of the descriptor table behind `fd`, if it is open. -/
def Proc.lookup (p : Proc) (fd : Int) : Option (File × Bool) :=
  if fd < 0 then none else p.fds.getD fd.toNat none

/-- Lowest descriptor number that is not open. -/
def lowest_free : List (Option (File × Bool)) → Nat
  | [] => 0
  | none :: _ => 0
  | some _ :: rest => lowest_free rest + 1

/-- Install an entry at descriptor `n`, extending the table when `n` is its
length. -/
def install (fds : List (Option (File × Bool))) (n : Nat) (e : File × Bool) :
    List (Option (File × Bool)) :=
  if n < fds.length then fds.set n (some e) else fds ++ [some e]

/-- Model of write(2) as used by stdio and dprintf: the text reaches the file
behind `fd` when `fd` is open for writing, and is lost otherwise. -/
def sys_write (fd : Int) (s : String) (p : Proc) : Proc :=
  match p.lookup fd with
  | some (f, true) => p.emit (Event.write f s)
  | _ => p.emit (Event.write_failed fd s)

/-- Model of close(2). -/
def sys_close (fd : Int) (p : Proc) : Proc :=
  { fds := if fd < 0 then p.fds else p.fds.set fd.toNat none
    trace := p.trace ++ [Event.close fd] }

/-- Model of dup(2): the new descriptor is the lowest free one and refers to the
same open file; the result is -1 when `fd` is not open. -/
def sys_dup (fd : Int) (p : Proc) : Int × Proc :=
  match p.lookup fd with
  | none => (-1, p.emit (Event.dup fd (-1)))
  | some e =>
    let n := lowest_free p.fds
    ((n : Int), { fds := install p.fds n e, trace := p.trace ++ [Event.dup fd n] })

/-- Model of open(2) on /dev/null: the lowest free descriptor is assigned. -/
def sys_open_devnull (writable : Bool) (p : Proc) : Int × Proc :=
  let n := lowest_free p.fds
  ((n : Int), { fds := install p.fds n (File.devnull, writable)
                trace := p.trace ++ [Event.open_ "/dev/null" writable n] })

/-! ## printf -/

/-- Expansion of a printf format: each %s takes the next argument, %% is a
percent sign, every other character is copied. -/
def format_aux : List Char → List String → List Char
  | [], _ => []
  | '%' :: 's' :: rest, a :: args => a.data ++ format_aux rest args
  | '%' :: 's' :: rest, [] => format_aux rest []
  | '%' :: '%' :: rest, args => '%' :: format_aux rest args
  | c :: rest, args => c :: format_aux rest args

/-- Text produced by printf for a format and its string arguments. -/
def sprintf (fmt : String) (args : List String) : String :=
  String.mk (format_aux fmt.data args)

/-- Model of printf: formatted text on descriptor 1. -/
def printf (fmt : String) (args : List String) (p : Proc) : Proc :=
  sys_write 1 (sprintf fmt args) p

/-- Model of puts: the string and a newline on descriptor 1. -/
def puts (s : String) (p : Proc) : Proc :=
  sys_write 1 (s ++ "\n") p

/-- Model of fprintf(stderr, ...): formatted text on descriptor 2. -/
def fprintf_stderr (fmt : String) (args : List String) (p : Proc) : Proc :=
  sys_write 2 (sprintf fmt args) p

/-- Model of dprintf: formatted text on the given descriptor. -/
def dprintf (fd : Int) (fmt : String) (args : List String) (p : Proc) : Proc :=
  sys_write fd (sprintf fmt args) p

/-! ## Environment -/

/-- One result of a getopt call: the option character returned and the value
left in optarg. -/
structure GetoptResult where
  o : Char
  optarg : String
  deriving DecidableEq, Repr

/-- Inputs of a run that the source file does not define. -/
structure Env where
  /-- NAME, a constant supplied by the build. -/
  NAME : String
  /-- VERSION, a constant supplied by the build. -/
  VERSION : String
  /-- Message catalogue lookup of libintl. -/
  gettext : String → String
  /-- Successive results of getopt(argc, argv, optstring) before it returns
  -1.  The diagnostics getopt itself prints on standard error are not events
  of the model. -/
  getopt : List String → String → List GetoptResult
  /-- Result of discid_get_default_device. -/
  default_device : String
  /-- Result of discid_read_sparse on a device (0 means failure). -/
  read_sparse : String → Int
  /-- Result of discid_get_error_msg. -/
  error_msg : String
  /-- Result of discid_get_id. -/
  id : String
  /-- Result of discid_get_freedb_id. -/
  freedb_id : String
  /-- Result of discid_get_submission_url. -/
  submission_url : String
  /-- Value fork returns in the process that is followed: 0 in the child, the
  child pid in the parent, -1 when no child was created. -/
  fork_ret : Int
  /-- Outcome of execvp: none when the process image is replaced, otherwise
  strerror(errno) after execvp returned. -/
  execvp_error : Option String

/-- How a function call ends. -/
inductive Ctl (α : Type) where
  | ret (a : α) (p : Proc)
  | exited (status : Int) (p : Proc)
  | replaced (p : Proc)

/-! ## The program -/

/-- Command that opens the default browser. -/
def SYSTEM_BROWSER_CMD : String := "xdg-open"

/-- Message printed by the -v option. -/
def copyright_message : String :=
  "Copyright © 2021 Riku Viitanen\nLicense GPLv3+: GNU GPL version 3 or later <https://gnu.org/licenses/gpl.html>.\nThis is free software: you are free to change and redistribute it.\nThere is NO WARRANTY, to the extent permitted by law."

/-- Function launch_browser: forks; the child redirects descriptors 1 and 2 to
/dev/null and calls execvp; when execvp returns the child reports the failure
on the saved descriptors and returns like the parent does. -/
def launch_browser (env : Env) (browser url : String) (p : Proc) : Ctl Unit :=
  let cpid := env.fork_ret
  let p := p.emit (Event.fork cpid)
  if cpid = 0 then
    let (stdout_copy, p) := sys_dup 1 p
    let (stderr_copy, p) := sys_dup 2 p
    let p := sys_close 1 p
    let p := sys_close 2 p
    let p := (sys_open_devnull true p).2
    let p := (sys_open_devnull false p).2
    let argv_launch := [browser, url]
    let p := p.emit (Event.execvp browser argv_launch)
    match env.execvp_error with
    | none => Ctl.replaced p
    | some err =>
      let p := dprintf stderr_copy (env.gettext "%s: Failed to start %s: %s\n")
                 [env.NAME, browser, err] p
      let p := dprintf stdout_copy (env.gettext "Submission URL: %s\n") [url] p
      let p := sys_close 1 p
      let p := sys_close 2 p
      let p := sys_close stdout_copy p
      let p := sys_close stderr_copy p
      Ctl.ret () p
  else
    Ctl.ret () p

/-- Function print_version. -/
def print_version (env : Env) (p : Proc) : Proc :=
  printf "%s %s\n" [env.NAME, env.VERSION] p

/-- Function print_usage. -/
def print_usage (env : Env) (program_name : String) (p : Proc) : Proc :=
  let p := printf (env.gettext "Usage: %s [OPTIONS]\n") [program_name] p
  let p := puts (env.gettext "Calculate MusicBrainz or CDDB IDs of a compact disc.") p
  let p := puts (env.gettext "If neither type of ID is specified, both are printed.\n") p
  let p := p.emit Event.discid_get_default_device
  let p := printf (env.gettext "-d DEVICE   Optical disc drive to use. Defaults to %s\n")
             [env.default_device] p
  let p := puts (env.gettext "-c          Print CDDB ID of CD") p
  let p := puts (env.gettext "-m          Print MusicBrainz Disc ID of CD") p
  let p := puts (env.gettext "-s          Submit Disc ID to MusicBrainz using the default browser") p
  let p := puts (env.gettext "-w BROWSER  Use BROWSER instead of the system default (implies -s)") p
  let p := puts (env.gettext "-b          Format the output more briefly") p
  let p := printf (env.gettext "-v          Print version (%s) information and exit\n")
             [env.VERSION] p
  let p := puts (env.gettext "-h          Print this help message and exit") p
  p

/-- Variables written by the option loop of get_options: the four in/out
parameters and the two locals flag_cddb and flag_mb. -/
structure OptState where
  flag_brief : Bool
  device : String
  flag_submit_id : Bool
  browser : String
  flag_cddb : Bool
  flag_mb : Bool
  deriving DecidableEq, Repr

/-- Values get_options leaves in its six output parameters. -/
structure Options where
  flag_brief : Bool
  device : String
  flag_submit_id : Bool
  flag_calculate_mb_id : Bool
  flag_calculate_cddb_id : Bool
  browser : String
  deriving DecidableEq, Repr

/-- The while loop of get_options over the successive getopt results; the
empty list is getopt returning -1. -/
def get_options_loop (env : Env) (argv0 : String) :
    List GetoptResult → OptState → Proc → Ctl OptState
  | [], st, p => Ctl.ret st p
  | r :: rs, st, p =>
    if r.o = 'd' then
      get_options_loop env argv0 rs { st with device := r.optarg } p
    else if r.o = 'c' then
      get_options_loop env argv0 rs { st with flag_cddb := true } p
    else if r.o = 'm' then
      get_options_loop env argv0 rs { st with flag_mb := true } p
    else if r.o = 's' then
      get_options_loop env argv0 rs { st with flag_submit_id := true } p
    else if r.o = 'b' then
      get_options_loop env argv0 rs { st with flag_brief := true } p
    else if r.o = 'v' then
      let p := print_version env p
      let p := puts copyright_message p
      Ctl.exited 0 p
    else if r.o = 'h' then
      let p := print_usage env argv0 p
      Ctl.exited 0 p
    else if r.o = 'w' then
      get_options_loop env argv0 rs { st with browser := r.optarg, flag_submit_id := true } p
    else
      let p := print_usage env argv0 p
      Ctl.exited (-1) p

/-- Function get_options. -/
def get_options (env : Env) (argv : List String) (flag_brief : Bool) (device : String)
    (flag_submit_id : Bool) (browser : String) (p : Proc) : Ctl Options :=
  match get_options_loop env (argv.headD "") (env.getopt argv "d:cmsbvhw:")
      { flag_brief := flag_brief, device := device, flag_submit_id := flag_submit_id,
        browser := browser, flag_cddb := false, flag_mb := false } p with
  | Ctl.ret st p =>
    Ctl.ret
      { flag_brief := st.flag_brief
        device := st.device
        flag_submit_id := st.flag_submit_id
        flag_calculate_mb_id := st.flag_mb || !st.flag_cddb
        flag_calculate_cddb_id := st.flag_cddb || !st.flag_mb
        browser := st.browser } p
  | Ctl.exited s p => Ctl.exited s p
  | Ctl.replaced p => Ctl.replaced p

/-- Result of running one process: its exit status (none when the process image
was replaced by execvp) and its events. -/
structure Run where
  status : Option Int
  trace : List Event
  deriving DecidableEq, Repr

/-- Exit status seen by the parent of a process that calls exit(n) or returns n
from main: the low eight bits. -/
def exit_status (n : Int) : Int := n % 256

/-- Function main. -/
def main (env : Env) (argv : List String) : Run :=
  let p := Proc.init
  let p := p.emit Event.setlocale
  let p := p.emit Event.bindtextdomain
  let p := p.emit Event.textdomain
  let p := p.emit Event.discid_get_default_device
  let device := env.default_device
  let browser := SYSTEM_BROWSER_CMD
  match get_options env argv false device false browser p with
  | Ctl.exited s p => { status := some (exit_status s), trace := p.trace }
  | Ctl.replaced p => { status := none, trace := p.trace }
  | Ctl.ret o p =>
    let p := p.emit Event.discid_new
    let p := p.emit (Event.discid_read_sparse o.device)
    if env.read_sparse o.device = 0 then
      let p := p.emit Event.discid_get_error_msg
      let p := fprintf_stderr "libdiscid: %s\n" [env.error_msg] p
      let p := p.emit Event.discid_free
      { status := some (exit_status 1), trace := p.trace }
    else
      let r : Ctl Unit :=
        if o.flag_calculate_mb_id || o.flag_submit_id then
          let p := p.emit Event.discid_get_id
          let mbid := env.id
          let p :=
            if o.flag_calculate_mb_id then
              if o.flag_brief then puts mbid p
              else printf "Musicbrainz Disc ID: %s\n" [mbid] p
            else p
          if o.flag_submit_id then
            let p := p.emit Event.discid_get_submission_url
            let url := env.submission_url
            launch_browser env o.browser url p
          else Ctl.ret () p
        else Ctl.ret () p
      match r with
      | Ctl.exited s p => { status := some (exit_status s), trace := p.trace }
      | Ctl.replaced p => { status := none, trace := p.trace }
      | Ctl.ret _ p =>
        let p :=
          if o.flag_calculate_cddb_id then
            let p := p.emit Event.discid_get_freedb_id
            if o.flag_brief then puts env.freedb_id p
            else printf "CDDB ID: %s\n" [env.freedb_id] p
          else p
        let p := p.emit Event.discid_free
        { status := some (exit_status 0), trace := p.trace }

/-! ## Observations on a run -/

/-- Text delivered to file `f` by the events of a trace, in order. -/
def written (f : File) : List Event → String
  | [] => ""
  | Event.write g s :: t => if g = f then s ++ written f t else written f t
  | _ :: t => written f t

/-- Events of a trace that follow its first fork. -/
def after_fork : List Event → List Event
  | [] => []
  | Event.fork _ :: t => t
  | _ :: t => after_fork t

/-- Whether an event is a call of fork. -/
def Event.is_fork : Event → Bool
  | Event.fork _ => true
  | _ => false

/-- Whether an event is a call of execvp. -/
def Event.is_execvp : Event → Bool
  | Event.execvp _ _ => true
  | _ => false

/-- Whether an event is a libdiscid call that takes the disc handle (creation
and release apart). -/
def Event.uses_handle : Event → Bool
  | Event.discid_read_sparse _ => true
  | Event.discid_get_error_msg => true
  | Event.discid_get_id => true
  | Event.discid_get_submission_url => true
  | Event.discid_get_freedb_id => true
  | _ => false

/-- Whether an event creates the disc handle. -/
def Event.acquires : Event → Bool
  | Event.discid_new => true
  | _ => false

/-- Whether an event releases the disc handle. -/
def Event.releases : Event → Bool
  | Event.discid_free => true
  | _ => false

/-- Whether an event is a write that reached the file `f`. -/
def Event.writes_to (f : File) : Event → Bool
  | Event.write g _ => decide (g = f)
  | _ => false

/-- Text that reaches the original standard output from the whole process
tree, for the environment `env` of the main process: what the main process
writes, followed by what the child writes after the fork when a child was
created.  The two processes run concurrently; the text of the child is placed
last here, and any other interleaving holds the same pieces. -/
def standard_output (env : Env) (argv : List String) : String :=
  written File.stdout (main env argv).trace ++
    (if 0 < env.fork_ret then
      written File.stdout (after_fork (main { env with fork_ret := 0 } argv).trace)
    else "")

/-! ## Option streams -/

/-- Results of the getopt calls of get_options on a command line. -/
def option_results (env : Env) (argv : List String) : List GetoptResult :=
  env.getopt argv "d:cmsbvhw:"

/-- Whether option character `c` occurs among getopt results. -/
def given (c : Char) (rs : List GetoptResult) : Bool :=
  rs.any (fun r => decide (r.o = c))

/-- Argument of the last occurrence of option `c`, or `dflt` when the option
does not occur. -/
def last_arg (c : Char) (dflt : String) : List GetoptResult → String
  | [] => dflt
  | r :: rs => if r.o = c then last_arg c r.optarg rs else last_arg c dflt rs

/-- Option characters on which the option loop goes on to the next getopt
call. -/
def continuing (c : Char) : Bool :=
  c = 'd' || c = 'c' || c = 'm' || c = 's' || c = 'b' || c = 'w'

/-- Option characters that have a case of their own in the switch. -/
def recognised (c : Char) : Bool :=
  continuing c || c = 'v' || c = 'h'

/-- Device the disc is read from: the argument of the last -d, else the default
device of the library. -/
def configured_device (env : Env) (argv : List String) : String :=
  last_arg 'd' env.default_device (option_results env argv)

/-- State of the option loop after a run of continuing options. -/
def OptState.after (st : OptState) (rs : List GetoptResult) : OptState :=
  { flag_brief := st.flag_brief || given 'b' rs
    device := last_arg 'd' st.device rs
    flag_submit_id := st.flag_submit_id || (given 's' rs || given 'w' rs)
    browser := last_arg 'w' st.browser rs
    flag_cddb := st.flag_cddb || given 'c' rs
    flag_mb := st.flag_mb || given 'm' rs }

/-! ## A getopt for concrete command lines -/

/-- Whether `c` is an option character of `optstring`, and if so whether it
takes an argument. -/
def optstring_find (c : Char) : List Char → Option Bool
  | [] => none
  | x :: rest =>
    if x = c ∧ c ≠ ':' then
      match rest with
      | ':' :: _ => some true
      | _ => some false
    else optstring_find c rest

/-- Scan of the option characters of one argv word.  The second component is
an option that still waits for its argument in the next word. -/
def getopt_cluster (optstring : List Char) : List Char → List GetoptResult × Option Char
  | [] => ([], none)
  | c :: cs =>
    match optstring_find c optstring with
    | some true =>
      if cs = [] then ([], some c) else ([{ o := c, optarg := String.mk cs }], none)
    | some false =>
      let r := getopt_cluster optstring cs
      ({ o := c, optarg := "" } :: r.1, r.2)
    | none =>
      let r := getopt_cluster optstring cs
      ({ o := '?', optarg := "" } :: r.1, r.2)

/-- Scan of the argv words after the program name, POSIX style: scanning stops
at the first word that is not an option or at a double dash; an unknown option
character and a missing option argument both give a question mark. -/
def getopt_words (optstring : List Char) : Option Char → List String → List GetoptResult
  | some _, [] => [{ o := '?', optarg := "" }]
  | some c, a :: rest => { o := c, optarg := a } :: getopt_words optstring none rest
  | none, [] => []
  | none, w :: rest =>
    match w.data with
    | '-' :: c :: cs =>
      if c = '-' ∧ cs = [] then []
      else
        let r := getopt_cluster optstring (c :: cs)
        r.1 ++ getopt_words optstring r.2 rest
    | _ => []

/-- Results of the successive getopt calls on a command line, as POSIX
specifies them. -/
def getopt_posix (argv : List String) (optstring : String) : List GetoptResult :=
  getopt_words optstring.data none argv.tail

/-- Sample environment: a readable disc, the C locale, the process followed is
the parent of the browser. -/
def sample_env : Env :=
  { NAME := "cdidc"
    VERSION := "1.0"
    gettext := fun s => s
    getopt := getopt_posix
    default_device := "/dev/cdrom"
    read_sparse := fun _ => 1
    error_msg := "cannot open device"
    id := "MBID"
    freedb_id := "CDDB"
    submission_url := "URL"
    fork_ret := 4242
    execvp_error := none }

/-- Sample environment in which the browser cannot be started. -/
def no_browser_env : Env :=
  { sample_env with execvp_error := some "No such file or directory" }

/-! ## Pieces of a run -/

/-- Events of every run up to the read of the disc. -/
def run_start (device : String) : List Event :=
  [Event.setlocale, Event.bindtextdomain, Event.textdomain, Event.discid_get_default_device,
    Event.discid_new, Event.discid_read_sparse device]

/-- Events of the child from fork to execvp. -/
def child_setup (browser url : String) : List Event :=
  [Event.fork 0, Event.dup 1 3, Event.dup 2 4, Event.close 1, Event.close 2,
    Event.open_ "/dev/null" true 1, Event.open_ "/dev/null" false 2,
    Event.execvp browser [browser, url]]

/-- Events of the child after execvp returned. -/
def child_report (env : Env) (browser url err : String) : List Event :=
  [Event.write File.stderr
      (sprintf (env.gettext "%s: Failed to start %s: %s\n") [env.NAME, browser, err]),
    Event.write File.stdout (sprintf (env.gettext "Submission URL: %s\n") [url]),
    Event.close 1, Event.close 2, Event.close 3, Event.close 4]

/-- Line printed for the MusicBrainz identifier. -/
def mb_line (brief : Bool) (id : String) : String :=
  if brief then id ++ "\n" else "Musicbrainz Disc ID: " ++ id ++ "\n"

/-- Line printed for the CDDB identifier. -/
def cddb_line (brief : Bool) (id : String) : String :=
  if brief then id ++ "\n" else "CDDB ID: " ++ id ++ "\n"

/-! ## Lemmas on the option loop -/

theorem after_nil (st : OptState) : st.after [] = st := by
  cases st; simp [OptState.after, given, last_arg]

theorem get_options_loop_append (env : Env) (argv0 : String) (pre rest : List GetoptResult)
    (h : ∀ r ∈ pre, continuing r.o = true) (st : OptState) (p : Proc) :
    get_options_loop env argv0 (pre ++ rest) st p
      = get_options_loop env argv0 rest (st.after pre) p := by
  induction pre generalizing st with
  | nil => simp [after_nil]
  | cons r rs ih =>
    have hr : continuing r.o = true := h r (List.mem_cons_self _ _)
    have hrs : ∀ x ∈ rs, continuing x.o = true := fun x hx => h x (List.mem_cons_of_mem _ hx)
    simp only [continuing, Bool.or_eq_true, decide_eq_true_eq] at hr
    rcases hr with ((((hr | hr) | hr) | hr) | hr) | hr <;>
      simp [get_options_loop, hr, ih hrs, OptState.after, given, last_arg]

theorem get_options_continuing (env : Env) (argv : List String)
    (h : ∀ r ∈ option_results env argv, continuing r.o = true)
    (fb : Bool) (dev : String) (fs : Bool) (br : String) (p : Proc) :
    get_options env argv fb dev fs br p
      = Ctl.ret
          { flag_brief := fb || given 'b' (option_results env argv)
            device := last_arg 'd' dev (option_results env argv)
            flag_submit_id :=
              fs || (given 's' (option_results env argv) || given 'w' (option_results env argv))
            flag_calculate_mb_id :=
              given 'm' (option_results env argv) || !given 'c' (option_results env argv)
            flag_calculate_cddb_id :=
              given 'c' (option_results env argv) || !given 'm' (option_results env argv)
            browser := last_arg 'w' br (option_results env argv) } p := by
  have key := get_options_loop_append env (argv.headD "") (option_results env argv) [] h
    { flag_brief := fb, device := dev, flag_submit_id := fs, browser := br,
      flag_cddb := false, flag_mb := false } p
  rw [List.append_nil] at key
  unfold get_options
  unfold option_results at key h ⊢
  rw [key]
  simp [get_options_loop, OptState.after]

theorem get_options_stop (env : Env) (argv : List String) (pre post : List GetoptResult)
    (r : GetoptResult) (hrs : option_results env argv = pre ++ r :: post)
    (hpre : ∀ x ∈ pre, continuing x.o = true) (hr : continuing r.o = false)
    (fb : Bool) (dev : String) (fs : Bool) (br : String) (p : Proc) :
    get_options env argv fb dev fs br p
      = if r.o = 'v' then Ctl.exited 0 (puts copyright_message (print_version env p))
        else if r.o = 'h' then Ctl.exited 0 (print_usage env (argv.headD "") p)
        else Ctl.exited (-1) (print_usage env (argv.headD "") p) := by
  unfold option_results at hrs
  simp only [continuing, Bool.or_eq_false_iff, decide_eq_false_iff_not] at hr
  obtain ⟨⟨⟨⟨⟨hd, hc⟩, hm⟩, hs⟩, hb⟩, hw⟩ := hr
  unfold get_options
  rw [hrs, get_options_loop_append env _ pre _ hpre]
  by_cases hv : r.o = 'v'
  · simp [get_options_loop, hv]
  · by_cases hh : r.o = 'h'
    · simp [get_options_loop, hh]
    · simp [get_options_loop, hd, hc, hm, hs, hb, hw, hv, hh]

theorem first_stop (rs : List GetoptResult) :
    (∀ r ∈ rs, continuing r.o = true) ∨
      ∃ pre r post, rs = pre ++ r :: post ∧ (∀ x ∈ pre, continuing x.o = true)
        ∧ continuing r.o = false := by
  induction rs with
  | nil => left; simp
  | cons a rs ih =>
    cases ha : continuing a.o with
    | false => exact Or.inr ⟨[], a, rs, rfl, by simp, ha⟩
    | true =>
      rcases ih with h | ⟨pre, r, post, h1, h2, h3⟩
      · left
        intro x hx
        rcases List.mem_cons.mp hx with rfl | hx
        · exact ha
        · exact h x hx
      · right
        refine ⟨a :: pre, r, post, by simp [h1], ?_, h3⟩
        intro x hx
        rcases List.mem_cons.mp hx with rfl | hx
        · exact ha
        · exact h2 x hx

theorem last_arg_append (c : Char) (d : String) (xs ys : List GetoptResult) :
    last_arg c d (xs ++ ys) = last_arg c (last_arg c d xs) ys := by
  induction xs generalizing d with
  | nil => rfl
  | cons x xs ih =>
    by_cases h : x.o = c <;> simp [last_arg, h, ih]

theorem last_arg_not_given (c : Char) (d : String) (rs : List GetoptResult)
    (h : given c rs = false) : last_arg c d rs = d := by
  induction rs with
  | nil => rfl
  | cons x xs ih =>
    simp only [given, List.any_cons, Bool.or_eq_false_iff, decide_eq_false_iff_not] at h
    simp only [last_arg, h.1, if_false]
    exact ih (by simpa [given] using h.2)

/-! ## Lemmas on printf formats -/

theorem sprintf_mb (x : String) :
    sprintf "Musicbrainz Disc ID: %s\n" [x] = "Musicbrainz Disc ID: " ++ x ++ "\n" := rfl

theorem sprintf_cddb (x : String) : sprintf "CDDB ID: %s\n" [x] = "CDDB ID: " ++ x ++ "\n" := rfl

theorem sprintf_libdiscid (x : String) :
    sprintf "libdiscid: %s\n" [x] = "libdiscid: " ++ x ++ "\n" := rfl

theorem sprintf_version (a b : String) :
    sprintf "%s %s\n" [a, b] = a ++ " " ++ b ++ "\n" := by
  apply String.ext
  simp [sprintf, format_aux, String.data_append]

theorem append_newline_ne_empty (a : String) : a ++ "\n" ≠ "" := by
  intro h
  have h2 := congrArg String.length h
  rw [String.length_append] at h2
  have h3 : "\n".length = 1 := by decide
  have h4 : "".length = 0 := by decide
  omega

theorem append_ne_empty_left (a b : String) (h : a ≠ "") : a ++ b ≠ "" := by
  intro h1
  have h2 := congrArg String.length h1
  rw [String.length_append] at h2
  have h4 : "".length = 0 := by decide
  apply h
  apply String.ext
  have h5 : a.length = 0 := by omega
  have h6 : a.data.length = 0 := h5
  exact List.length_eq_zero.mp h6

theorem append_ne_empty_right (a b : String) (h : b ≠ "") : a ++ b ≠ "" := by
  intro h1
  have h2 := congrArg String.length h1
  rw [String.length_append] at h2
  have h4 : "".length = 0 := by decide
  apply h
  apply String.ext
  have h5 : b.length = 0 := by omega
  have h6 : b.data.length = 0 := h5
  exact List.length_eq_zero.mp h6

/-! ## Closed forms of a run -/

theorem launch_browser_parent (env : Env) (h : env.fork_ret ≠ 0) (browser url : String)
    (p : Proc) :
    launch_browser env browser url p = Ctl.ret () (p.emit (Event.fork env.fork_ret)) := by
  simp [launch_browser, h]

theorem launch_browser_child_replaced (env : Env) (h0 : env.fork_ret = 0)
    (hx : env.execvp_error = none) (browser url : String) (t : List Event) :
    launch_browser env browser url
        { fds := [some (File.stdin, false), some (File.stdout, true), some (File.stderr, true)]
          trace := t }
      = Ctl.replaced
          { fds := [some (File.stdin, false), some (File.devnull, true),
              some (File.devnull, false), some (File.stdout, true), some (File.stderr, true)]
            trace := t ++ child_setup browser url } := by
  unfold launch_browser
  simp only [h0, if_true, hx]
  simp [Proc.emit, sys_dup, sys_close, sys_open_devnull, lowest_free, install, Proc.lookup,
    child_setup]

theorem launch_browser_child_failed (env : Env) (h0 : env.fork_ret = 0) (err : String)
    (hx : env.execvp_error = some err) (browser url : String) (t : List Event) :
    launch_browser env browser url
        { fds := [some (File.stdin, false), some (File.stdout, true), some (File.stderr, true)]
          trace := t }
      = Ctl.ret ()
          { fds := [some (File.stdin, false), none, none, none, none]
            trace := t ++ child_setup browser url ++ child_report env browser url err } := by
  unfold launch_browser
  simp only [h0, if_true, hx]
  simp [Proc.emit, sys_dup, sys_close, sys_open_devnull, lowest_free, install, Proc.lookup,
    dprintf, sys_write, child_setup, child_report]

/-- Run of a process that is not the forked child, or that never forks. -/
theorem main_parent (env : Env) (argv : List String) (rs : List GetoptResult)
    (hrs : option_results env argv = rs)
    (hopts : ∀ r ∈ rs, continuing r.o = true)
    (hread : env.read_sparse (configured_device env argv) ≠ 0)
    (hmain : env.fork_ret ≠ 0 ∨ (given 's' rs || given 'w' rs) = false) :
    main env argv =
      { status := some 0
        trace := run_start (configured_device env argv)
          ++ (if (given 'm' rs || !given 'c' rs) || (given 's' rs || given 'w' rs) then
                [Event.discid_get_id] else [])
          ++ (if given 'm' rs || !given 'c' rs then
                [Event.write File.stdout (mb_line (given 'b' rs) env.id)] else [])
          ++ (if given 's' rs || given 'w' rs then
                [Event.discid_get_submission_url, Event.fork env.fork_ret] else [])
          ++ (if given 'c' rs || !given 'm' rs then
                [Event.discid_get_freedb_id,
                  Event.write File.stdout (cddb_line (given 'b' rs) env.freedb_id)] else [])
          ++ [Event.discid_free] } := by
  subst hrs
  unfold configured_device at hread ⊢
  unfold main
  simp only [get_options_continuing env argv hopts, Bool.false_or]
  rcases hmain with hmain | hmain
  · cases given 'm' (option_results env argv) <;> cases given 'c' (option_results env argv) <;>
      cases given 's' (option_results env argv) <;> cases given 'w' (option_results env argv) <;>
      cases given 'b' (option_results env argv) <;>
      simp [hread, launch_browser_parent env hmain, Proc.init, Proc.emit, printf, puts,
        sys_write, Proc.lookup, sprintf_mb, sprintf_cddb, exit_status, run_start, mb_line,
        cddb_line]
  · simp only [hmain]
    cases given 'm' (option_results env argv) <;> cases given 'c' (option_results env argv) <;>
      cases given 'b' (option_results env argv) <;>
      simp [hread, Proc.init, Proc.emit, printf, puts,
        sys_write, Proc.lookup, sprintf_mb, sprintf_cddb, exit_status, run_start, mb_line,
        cddb_line]

/-- Run of the forked child whose process image execvp replaces. -/
theorem main_child_replaced (env : Env) (argv : List String) (rs : List GetoptResult)
    (hrs : option_results env argv = rs)
    (hopts : ∀ r ∈ rs, continuing r.o = true)
    (hread : env.read_sparse (configured_device env argv) ≠ 0)
    (h0 : env.fork_ret = 0) (hx : env.execvp_error = none)
    (hsub : (given 's' rs || given 'w' rs) = true) :
    main env argv =
      { status := none
        trace := run_start (configured_device env argv)
          ++ [Event.discid_get_id]
          ++ (if given 'm' rs || !given 'c' rs then
                [Event.write File.stdout (mb_line (given 'b' rs) env.id)] else [])
          ++ [Event.discid_get_submission_url]
          ++ child_setup (last_arg 'w' SYSTEM_BROWSER_CMD rs) env.submission_url } := by
  subst hrs
  unfold configured_device at hread ⊢
  unfold main
  simp only [get_options_continuing env argv hopts, Bool.false_or, hsub]
  cases given 'm' (option_results env argv) <;> cases given 'c' (option_results env argv) <;>
    cases given 'b' (option_results env argv) <;>
    simp [hread, launch_browser_child_replaced env h0 hx, Proc.init, Proc.emit, printf, puts,
      sys_write, Proc.lookup, sprintf_mb, run_start, mb_line]

/-- Run of the forked child in which execvp returns. -/
theorem main_child_failed (env : Env) (argv : List String) (rs : List GetoptResult)
    (hrs : option_results env argv = rs)
    (hopts : ∀ r ∈ rs, continuing r.o = true)
    (hread : env.read_sparse (configured_device env argv) ≠ 0)
    (h0 : env.fork_ret = 0) (err : String) (hx : env.execvp_error = some err)
    (hsub : (given 's' rs || given 'w' rs) = true) :
    main env argv =
      { status := some 0
        trace := run_start (configured_device env argv)
          ++ [Event.discid_get_id]
          ++ (if given 'm' rs || !given 'c' rs then
                [Event.write File.stdout (mb_line (given 'b' rs) env.id)] else [])
          ++ [Event.discid_get_submission_url]
          ++ child_setup (last_arg 'w' SYSTEM_BROWSER_CMD rs) env.submission_url
          ++ child_report env (last_arg 'w' SYSTEM_BROWSER_CMD rs) env.submission_url err
          ++ (if given 'c' rs || !given 'm' rs then
                [Event.discid_get_freedb_id,
                  Event.write_failed 1 (cddb_line (given 'b' rs) env.freedb_id)] else [])
          ++ [Event.discid_free] } := by
  subst hrs
  unfold configured_device at hread ⊢
  unfold main
  simp only [get_options_continuing env argv hopts, Bool.false_or, hsub]
  cases given 'm' (option_results env argv) <;> cases given 'c' (option_results env argv) <;>
    cases given 'b' (option_results env argv) <;>
    simp [hread, launch_browser_child_failed env h0 err hx, Proc.init, Proc.emit, printf, puts,
      sys_write, Proc.lookup, sprintf_mb, sprintf_cddb, exit_status, run_start, mb_line,
      cddb_line]

/-- Text the forked child writes on the original standard output after the
fork. -/
theorem child_stdout (env : Env) (argv : List String) (rs : List GetoptResult)
    (hrs : option_results env argv = rs)
    (hopts : ∀ r ∈ rs, continuing r.o = true)
    (hread : env.read_sparse (configured_device env argv) ≠ 0)
    (h0 : env.fork_ret = 0) :
    written File.stdout (after_fork (main env argv).trace)
      = (if given 's' rs || given 'w' rs then
          (match env.execvp_error with
           | none => ""
           | some _ => sprintf (env.gettext "Submission URL: %s\n") [env.submission_url])
         else "") := by
  cases hsub : (given 's' rs || given 'w' rs)
  · rw [main_parent env argv rs hrs hopts hread (Or.inr hsub)]
    simp only [hsub]
    cases given 'm' rs <;> cases given 'c' rs <;> simp [run_start, written, after_fork]
  · rcases Option.eq_none_or_eq_some env.execvp_error with hx | ⟨err, hx⟩
    · rw [main_child_replaced env argv rs hrs hopts hread h0 hx hsub]
      simp only [hx]
      cases given 'm' rs <;> cases given 'c' rs <;>
        simp [run_start, child_setup, written, after_fork]
    · rw [main_child_failed env argv rs hrs hopts hread h0 err hx hsub]
      simp only [hx]
      cases given 'm' rs <;> cases given 'c' rs <;>
        simp [run_start, child_setup, child_report, written, after_fork]

/-- Run that stops in the option loop: the first option that is not a
continuing one is -v, -h or anything else. -/
theorem main_stop (env : Env) (argv : List String) (pre post : List GetoptResult)
    (r : GetoptResult) (hrs : option_results env argv = pre ++ r :: post)
    (hpre : ∀ x ∈ pre, continuing x.o = true) (hr : continuing r.o = false) :
    main env argv =
      if r.o = 'v' then
        { status := some 0
          trace := [Event.setlocale, Event.bindtextdomain, Event.textdomain,
            Event.discid_get_default_device,
            Event.write File.stdout (env.NAME ++ " " ++ env.VERSION ++ "\n"),
            Event.write File.stdout (copyright_message ++ "\n")] }
      else
        { status := some (if r.o = 'h' then 0 else 255)
          trace := [Event.setlocale, Event.bindtextdomain, Event.textdomain,
            Event.discid_get_default_device]
            ++ (print_usage env (argv.headD "") Proc.init).trace } := by
  unfold main
  simp only [get_options_stop env argv pre post r hrs hpre hr]
  by_cases hv : r.o = 'v'
  · simp [hv, print_version, printf, puts, sys_write, Proc.lookup, Proc.init, Proc.emit,
      sprintf_version, exit_status]
  · by_cases hh : r.o = 'h'
    · simp [hv, hh, print_usage, printf, puts, sys_write, Proc.lookup, Proc.init, Proc.emit,
        exit_status]
    · simp [hv, hh, print_usage, printf, puts, sys_write, Proc.lookup, Proc.init, Proc.emit,
        exit_status]

theorem written_append (f : File) (a b : List Event) :
    written f (a ++ b) = written f a ++ written f b := by
  induction a with
  | nil => simp [written]
  | cons e t ih =>
    cases e <;> simp [written, ih]
    split <;> simp [String.append_assoc]

theorem written_start (f : File) :
    written f [Event.setlocale, Event.bindtextdomain, Event.textdomain,
      Event.discid_get_default_device] = "" := by
  simp [written]

theorem start_no_handle :
    ∀ e ∈ [Event.setlocale, Event.bindtextdomain, Event.textdomain,
      Event.discid_get_default_device],
      e ≠ Event.discid_new ∧ e.uses_handle = false ∧ e ≠ Event.discid_free
        ∧ e.is_fork = false ∧ e.is_execvp = false := by
  simp [Event.uses_handle, Event.is_fork, Event.is_execvp]

theorem usage_no_handle (env : Env) (name : String) :
    ∀ e ∈ (print_usage env name Proc.init).trace,
      e ≠ Event.discid_new ∧ e.uses_handle = false ∧ e ≠ Event.discid_free
        ∧ e.is_fork = false ∧ e.is_execvp = false := by
  simp [print_usage, printf, puts, sys_write, Proc.lookup, Proc.init, Proc.emit,
    Event.uses_handle, Event.is_fork, Event.is_execvp]

/-- Events of print_usage from the initial descriptor table. -/
theorem print_usage_events (env : Env) (name : String) :
    (print_usage env name Proc.init).trace
      = [Event.write File.stdout (sprintf (env.gettext "Usage: %s [OPTIONS]\n") [name]),
          Event.write File.stdout
            (env.gettext "Calculate MusicBrainz or CDDB IDs of a compact disc." ++ "\n"),
          Event.write File.stdout
            (env.gettext "If neither type of ID is specified, both are printed.\n" ++ "\n"),
          Event.discid_get_default_device,
          Event.write File.stdout
            (sprintf (env.gettext "-d DEVICE   Optical disc drive to use. Defaults to %s\n")
              [env.default_device]),
          Event.write File.stdout (env.gettext "-c          Print CDDB ID of CD" ++ "\n"),
          Event.write File.stdout
            (env.gettext "-m          Print MusicBrainz Disc ID of CD" ++ "\n"),
          Event.write File.stdout
            (env.gettext "-s          Submit Disc ID to MusicBrainz using the default browser"
              ++ "\n"),
          Event.write File.stdout
            (env.gettext "-w BROWSER  Use BROWSER instead of the system default (implies -s)"
              ++ "\n"),
          Event.write File.stdout
            (env.gettext "-b          Format the output more briefly" ++ "\n"),
          Event.write File.stdout
            (sprintf (env.gettext "-v          Print version (%s) information and exit\n")
              [env.VERSION]),
          Event.write File.stdout
            (env.gettext "-h          Print this help message and exit" ++ "\n")] := by
  simp [print_usage, printf, puts, sys_write, Proc.lookup, Proc.init, Proc.emit]

/-- Text print_usage delivers to standard output and to standard error. -/
theorem print_usage_written (env : Env) (name : String) :
    written File.stdout (print_usage env name Proc.init).trace
      = sprintf (env.gettext "Usage: %s [OPTIONS]\n") [name]
        ++ (env.gettext "Calculate MusicBrainz or CDDB IDs of a compact disc." ++ "\n")
        ++ (env.gettext "If neither type of ID is specified, both are printed.\n" ++ "\n")
        ++ sprintf (env.gettext "-d DEVICE   Optical disc drive to use. Defaults to %s\n")
            [env.default_device]
        ++ (env.gettext "-c          Print CDDB ID of CD" ++ "\n")
        ++ (env.gettext "-m          Print MusicBrainz Disc ID of CD" ++ "\n")
        ++ (env.gettext "-s          Submit Disc ID to MusicBrainz using the default browser"
            ++ "\n")
        ++ (env.gettext "-w BROWSER  Use BROWSER instead of the system default (implies -s)"
            ++ "\n")
        ++ (env.gettext "-b          Format the output more briefly" ++ "\n")
        ++ sprintf (env.gettext "-v          Print version (%s) information and exit\n")
            [env.VERSION]
        ++ (env.gettext "-h          Print this help message and exit" ++ "\n")
      ∧ written File.stderr (print_usage env name Proc.init).trace = "" := by
  rw [print_usage_events]
  generalize sprintf (env.gettext "Usage: %s [OPTIONS]\n") [name] = l1
  generalize env.gettext "Calculate MusicBrainz or CDDB IDs of a compact disc." ++ "\n" = l2
  generalize env.gettext "If neither type of ID is specified, both are printed.\n" ++ "\n" = l3
  generalize sprintf (env.gettext "-d DEVICE   Optical disc drive to use. Defaults to %s\n")
    [env.default_device] = l4
  generalize env.gettext "-c          Print CDDB ID of CD" ++ "\n" = l5
  generalize env.gettext "-m          Print MusicBrainz Disc ID of CD" ++ "\n" = l6
  generalize env.gettext "-s          Submit Disc ID to MusicBrainz using the default browser"
    ++ "\n" = l7
  generalize env.gettext "-w BROWSER  Use BROWSER instead of the system default (implies -s)"
    ++ "\n" = l8
  generalize env.gettext "-b          Format the output more briefly" ++ "\n" = l9
  generalize sprintf (env.gettext "-v          Print version (%s) information and exit\n")
    [env.VERSION] = l10
  generalize env.gettext "-h          Print this help message and exit" ++ "\n" = l11
  simp [written, String.append_assoc]

/-- With submission requested the run fetches the URL and forks exactly once. -/
theorem trace_forks_once (env : Env) (argv : List String) (rs : List GetoptResult)
    (hrs : option_results env argv = rs)
    (hopts : ∀ r ∈ rs, continuing r.o = true)
    (hread : env.read_sparse (configured_device env argv) ≠ 0)
    (hsub : (given 's' rs || given 'w' rs) = true) :
    (main env argv).trace.filter Event.is_fork = [Event.fork env.fork_ret]
      ∧ Event.discid_get_submission_url ∈ (main env argv).trace := by
  by_cases h0 : env.fork_ret = 0
  · rcases Option.eq_none_or_eq_some env.execvp_error with hx | ⟨err, hx⟩
    · rw [main_child_replaced env argv _ hrs hopts hread h0 hx hsub, h0]
      cases given 'm' rs <;> cases given 'c' rs <;>
        simp [run_start, child_setup, Event.is_fork]
    · rw [main_child_failed env argv _ hrs hopts hread h0 err hx hsub, h0]
      cases given 'm' rs <;> cases given 'c' rs <;>
        simp [run_start, child_setup, child_report, Event.is_fork]
  · rw [main_parent env argv _ hrs hopts hread (Or.inl h0)]
    simp only [hsub]
    cases given 'm' rs <;> cases given 'c' rs <;> simp [run_start, Event.is_fork]

/-- With submission requested only the child calls execvp, once. -/
theorem trace_execvp (env : Env) (argv : List String) (rs : List GetoptResult)
    (hrs : option_results env argv = rs)
    (hopts : ∀ r ∈ rs, continuing r.o = true)
    (hread : env.read_sparse (configured_device env argv) ≠ 0)
    (hsub : (given 's' rs || given 'w' rs) = true) :
    (main env argv).trace.filter Event.is_execvp
      = if env.fork_ret = 0 then
          [Event.execvp (last_arg 'w' SYSTEM_BROWSER_CMD rs)
            [last_arg 'w' SYSTEM_BROWSER_CMD rs, env.submission_url]]
        else [] := by
  by_cases h0 : env.fork_ret = 0
  · rw [if_pos h0]
    rcases Option.eq_none_or_eq_some env.execvp_error with hx | ⟨err, hx⟩
    · rw [main_child_replaced env argv _ hrs hopts hread h0 hx hsub]
      cases given 'm' rs <;> cases given 'c' rs <;>
        simp [run_start, child_setup, Event.is_execvp]
    · rw [main_child_failed env argv _ hrs hopts hread h0 err hx hsub]
      cases given 'm' rs <;> cases given 'c' rs <;>
        simp [run_start, child_setup, child_report, Event.is_execvp]
  · rw [if_neg h0, main_parent env argv _ hrs hopts hread (Or.inl h0)]
    simp only [hsub]
    cases given 'm' rs <;> cases given 'c' rs <;> simp [run_start, Event.is_execvp]

/-- Without submission the run has no fork, no execvp and no URL fetch. -/
theorem trace_no_launch (env : Env) (argv : List String) (rs : List GetoptResult)
    (hrs : option_results env argv = rs)
    (hopts : ∀ r ∈ rs, continuing r.o = true)
    (hread : env.read_sparse (configured_device env argv) ≠ 0)
    (hsub : (given 's' rs || given 'w' rs) = false) :
    (main env argv).trace.filter Event.is_fork = []
      ∧ (main env argv).trace.filter Event.is_execvp = []
      ∧ Event.discid_get_submission_url ∉ (main env argv).trace
      ∧ (main env argv).status = some 0 := by
  rw [main_parent env argv _ hrs hopts hread (Or.inr hsub)]
  simp only [hsub]
  cases given 'm' rs <;> cases given 'c' rs <;>
    simp [run_start, Event.is_fork, Event.is_execvp]

/-- Run in which the read of the disc fails. -/
theorem main_read_failed (env : Env) (argv : List String)
    (hopts : ∀ r ∈ option_results env argv, continuing r.o = true)
    (hfail : env.read_sparse (configured_device env argv) = 0) :
    main env argv =
      { status := some 1
        trace := [Event.setlocale, Event.bindtextdomain, Event.textdomain,
          Event.discid_get_default_device, Event.discid_new,
          Event.discid_read_sparse (configured_device env argv),
          Event.discid_get_error_msg,
          Event.write File.stderr ("libdiscid: " ++ env.error_msg ++ "\n"),
          Event.discid_free] } := by
  unfold configured_device at hfail ⊢
  unfold main
  simp only [get_options_continuing env argv hopts, Bool.false_or]
  simp [hfail, Proc.init, Proc.emit, fprintf_stderr, sys_write, Proc.lookup,
    sprintf_libdiscid, exit_status]

/-- A run that gets past the option loop and ends in this program is some
events holding one creation of the handle and no release, followed by the
release. -/
theorem release_once (env : Env) (argv : List String) (rs : List GetoptResult)
    (hrs : option_results env argv = rs)
    (hopts : ∀ r ∈ rs, continuing r.o = true)
    (hproc : env.fork_ret = 0 → env.execvp_error ≠ none) :
    ∃ t, (main env argv).trace = t ++ [Event.discid_free]
      ∧ t.filter Event.acquires = [Event.discid_new]
      ∧ t.filter Event.releases = [] := by
  by_cases hread : env.read_sparse (configured_device env argv) = 0
  · rw [main_read_failed env argv (hrs ▸ hopts) hread]
    exact ⟨[Event.setlocale, Event.bindtextdomain, Event.textdomain,
      Event.discid_get_default_device, Event.discid_new,
      Event.discid_read_sparse (configured_device env argv), Event.discid_get_error_msg,
      Event.write File.stderr ("libdiscid: " ++ env.error_msg ++ "\n")], rfl,
      by simp [Event.acquires], by simp [Event.releases]⟩
  · cases hsub : (given 's' rs || given 'w' rs)
    · rw [main_parent env argv rs hrs hopts hread (Or.inr hsub)]
      simp only [hsub]
      refine ⟨_, rfl, ?_, ?_⟩ <;>
        cases given 'm' rs <;> cases given 'c' rs <;>
        simp [run_start, Event.acquires, Event.releases]
    · by_cases h0 : env.fork_ret = 0
      · rcases Option.eq_none_or_eq_some env.execvp_error with hx | ⟨err, hx⟩
        · exact absurd hx (hproc h0)
        · rw [main_child_failed env argv rs hrs hopts hread h0 err hx hsub]
          refine ⟨_, rfl, ?_, ?_⟩ <;>
            cases given 'm' rs <;> cases given 'c' rs <;>
            simp [run_start, child_setup, child_report, Event.acquires, Event.releases]
      · rw [main_parent env argv rs hrs hopts hread (Or.inl h0)]
        simp only [hsub]
        refine ⟨_, rfl, ?_, ?_⟩ <;>
          cases given 'm' rs <;> cases given 'c' rs <;>
          simp [run_start, Event.acquires, Event.releases]

/-! ## Selection of the identifiers -/

/-- C1: on a command line of continuing options with a readable disc, the main
process prints on standard output the MusicBrainz line exactly when -m was given
or -c was not, followed by the CDDB line exactly when -c was given or -m was
not; each line is bare under -b and labelled otherwise, and the output is never
empty. -/
theorem C1_default_selection (env : Env) (argv : List String) (rs : List GetoptResult)
    (hrs : option_results env argv = rs)
    (hopts : ∀ r ∈ rs, continuing r.o = true)
    (hread : env.read_sparse (configured_device env argv) ≠ 0)
    (hmain : env.fork_ret ≠ 0) :
    written File.stdout (main env argv).trace
        = (if given 'm' rs || !given 'c' rs then
            (if given 'b' rs then env.id ++ "\n"
             else "Musicbrainz Disc ID: " ++ env.id ++ "\n")
           else "")
          ++ (if given 'c' rs || !given 'm' rs then
            (if given 'b' rs then env.freedb_id ++ "\n"
             else "CDDB ID: " ++ env.freedb_id ++ "\n")
           else "")
      ∧ written File.stdout (main env argv).trace ≠ "" := by
  subst hrs
  unfold configured_device at hread
  have hout : written File.stdout (main env argv).trace
        = (if given 'm' (option_results env argv) || !given 'c' (option_results env argv) then
            (if given 'b' (option_results env argv) then env.id ++ "\n"
             else "Musicbrainz Disc ID: " ++ env.id ++ "\n")
           else "")
          ++ (if given 'c' (option_results env argv) || !given 'm' (option_results env argv) then
            (if given 'b' (option_results env argv) then env.freedb_id ++ "\n"
             else "CDDB ID: " ++ env.freedb_id ++ "\n")
           else "") := by
    unfold main
    simp only [get_options_continuing env argv hopts, Bool.false_or]
    cases given 'm' (option_results env argv) <;> cases given 'c' (option_results env argv) <;>
      cases given 's' (option_results env argv) <;> cases given 'w' (option_results env argv) <;>
      cases given 'b' (option_results env argv) <;>
      simp [hread, hmain, launch_browser, Proc.init, Proc.emit, printf, puts, sys_write,
        Proc.lookup, written, sprintf_mb, sprintf_cddb]
  refine ⟨hout, ?_⟩
  rw [hout]
  cases given 'm' (option_results env argv) <;> cases given 'c' (option_results env argv) <;>
    cases given 'b' (option_results env argv) <;>
    first
      | exact append_ne_empty_left _ _ (append_newline_ne_empty _)
      | exact append_ne_empty_right _ _ (append_newline_ne_empty _)

/-- Witness of C1: with -c alone only the labelled CDDB line is printed. -/
theorem C1_default_selection_witness :
    option_results sample_env ["cdidc", "-c"] = [{ o := 'c', optarg := "" }]
      ∧ (∀ r ∈ [({ o := 'c', optarg := "" } : GetoptResult)], continuing r.o = true)
      ∧ sample_env.read_sparse (configured_device sample_env ["cdidc", "-c"]) ≠ 0
      ∧ sample_env.fork_ret ≠ 0
      ∧ written File.stdout (main sample_env ["cdidc", "-c"]).trace = "CDDB ID: CDDB\n" :=
  ⟨rfl, by decide, by decide, by decide,
    (C1_default_selection sample_env ["cdidc", "-c"] [{ o := 'c', optarg := "" }] rfl
      (by decide) (by decide) (by decide)).1.trans (by decide)⟩

/-! ## Failed read -/

/-- C2: on a command line of continuing options, when discid_read_sparse fails
on the configured device the run is exactly: handle creation, the failed read,
the fetch of the error message, one write of the message on standard error and
the release of the handle.  The exit status is 1, nothing is written on
standard output, no identifier or submission URL is fetched and neither fork
nor execvp is called. -/
theorem C2_failed_read (env : Env) (argv : List String)
    (hopts : ∀ r ∈ option_results env argv, continuing r.o = true)
    (hfail : env.read_sparse (configured_device env argv) = 0) :
    main env argv =
        { status := some 1
          trace := [Event.setlocale, Event.bindtextdomain, Event.textdomain,
            Event.discid_get_default_device, Event.discid_new,
            Event.discid_read_sparse (configured_device env argv),
            Event.discid_get_error_msg,
            Event.write File.stderr ("libdiscid: " ++ env.error_msg ++ "\n"),
            Event.discid_free] }
      ∧ (main env argv).status = some 1
      ∧ written File.stderr (main env argv).trace = "libdiscid: " ++ env.error_msg ++ "\n"
      ∧ written File.stdout (main env argv).trace = ""
      ∧ (∀ e ∈ (main env argv).trace,
          e.writes_to File.stdout = false ∧ e ≠ Event.discid_get_id
            ∧ e ≠ Event.discid_get_freedb_id ∧ e ≠ Event.discid_get_submission_url
            ∧ e.is_fork = false ∧ e.is_execvp = false) := by
  have hrun := main_read_failed env argv hopts hfail
  refine ⟨hrun, ?_⟩
  rw [hrun]
  simp [written, Event.writes_to, Event.is_fork, Event.is_execvp]

/-- Witness of C2: an unreadable disc with -s and -b. -/
theorem C2_failed_read_witness :
    (∀ r ∈ option_results { sample_env with read_sparse := fun _ => 0 } ["cdidc", "-s", "-b"],
        continuing r.o = true)
      ∧ ({ sample_env with read_sparse := fun _ => 0 } : Env).read_sparse
          (configured_device { sample_env with read_sparse := fun _ => 0 }
            ["cdidc", "-s", "-b"]) = 0
      ∧ (main { sample_env with read_sparse := fun _ => 0 } ["cdidc", "-s", "-b"]).status
          = some 1 :=
  ⟨by decide, rfl,
    (C2_failed_read { sample_env with read_sparse := fun _ => 0 } ["cdidc", "-s", "-b"]
      (by decide) rfl).2.1⟩

/-! ## Labelled output -/

/-- C3: without -b, on a command line of continuing options with a readable
disc, the standard output of the main process is the line
"Musicbrainz Disc ID: " ++ id if the MusicBrainz identifier is selected,
followed by the line "CDDB ID: " ++ id if the CDDB identifier is selected, and
the exit status is 0.  With no option at all both lines are printed in that
order. -/
theorem C3_labelled_output (env : Env) (argv : List String) (rs : List GetoptResult)
    (hrs : option_results env argv = rs)
    (hopts : ∀ r ∈ rs, continuing r.o = true)
    (hread : env.read_sparse (configured_device env argv) ≠ 0)
    (hmain : env.fork_ret ≠ 0)
    (hb : given 'b' rs = false) :
    written File.stdout (main env argv).trace
        = (if given 'm' rs || !given 'c' rs then "Musicbrainz Disc ID: " ++ env.id ++ "\n"
           else "")
          ++ (if given 'c' rs || !given 'm' rs then "CDDB ID: " ++ env.freedb_id ++ "\n"
           else "")
      ∧ (main env argv).status = some 0
      ∧ (rs = [] →
          written File.stdout (main env argv).trace
            = "Musicbrainz Disc ID: " ++ env.id ++ "\n" ++ ("CDDB ID: " ++ env.freedb_id ++ "\n"))
      := by
  subst hrs
  unfold configured_device at hread
  have hout : written File.stdout (main env argv).trace
        = (if given 'm' (option_results env argv) || !given 'c' (option_results env argv)
            then "Musicbrainz Disc ID: " ++ env.id ++ "\n" else "")
          ++ (if given 'c' (option_results env argv) || !given 'm' (option_results env argv)
            then "CDDB ID: " ++ env.freedb_id ++ "\n" else "")
      ∧ (main env argv).status = some 0 := by
    unfold main
    simp only [get_options_continuing env argv hopts, hb, Bool.false_or]
    cases given 'm' (option_results env argv) <;> cases given 'c' (option_results env argv) <;>
      cases given 's' (option_results env argv) <;> cases given 'w' (option_results env argv) <;>
      simp [hread, hmain, launch_browser, Proc.init, Proc.emit, printf, puts, sys_write,
        Proc.lookup, written, sprintf_mb, sprintf_cddb, exit_status]
  refine ⟨hout.1, hout.2, ?_⟩
  intro hnil
  rw [hout.1, hnil]
  simp [given]

/-- Witness of C3: no option at all. -/
theorem C3_labelled_output_witness :
    option_results sample_env ["cdidc"] = []
      ∧ (∀ r ∈ ([] : List GetoptResult), continuing r.o = true)
      ∧ sample_env.read_sparse (configured_device sample_env ["cdidc"]) ≠ 0
      ∧ sample_env.fork_ret ≠ 0
      ∧ given 'b' [] = false
      ∧ written File.stdout (main sample_env ["cdidc"]).trace
          = "Musicbrainz Disc ID: MBID\nCDDB ID: CDDB\n"
      ∧ (main sample_env ["cdidc"]).status = some 0 :=
  ⟨rfl, by decide, by decide, by decide, rfl,
    ((C3_labelled_output sample_env ["cdidc"] [] rfl (by decide) (by decide) (by decide)
      rfl).2.2 rfl).trans (by decide),
    (C3_labelled_output sample_env ["cdidc"] [] rfl (by decide) (by decide) (by decide)
      rfl).2.1⟩

/-! ## Brief output -/

/-- C4 as stated fails: with -b and -s, when the child cannot start the browser
it writes the line "Submission URL: URL" on the original standard output, so
standard output holds more than the two bare identifiers. -/
theorem C4_brief_output_counterexample :
    (∀ r ∈ option_results no_browser_env ["cdidc", "-b", "-s"], continuing r.o = true)
      ∧ given 'b' (option_results no_browser_env ["cdidc", "-b", "-s"]) = true
      ∧ no_browser_env.read_sparse (configured_device no_browser_env ["cdidc", "-b", "-s"]) ≠ 0
      ∧ standard_output no_browser_env ["cdidc", "-b", "-s"]
          = "MBID\nCDDB\nSubmission URL: URL\n"
      ∧ standard_output no_browser_env ["cdidc", "-b", "-s"]
          ≠ no_browser_env.id ++ "\n" ++ (no_browser_env.freedb_id ++ "\n") := by
  decide

/-- C4 amended: with -b, on a command line of continuing options with a
readable disc, the main process writes on standard output exactly the bare
MusicBrainz identifier and a newline if it is selected, then the bare CDDB
identifier and a newline if it is selected.  The forked child writes on the
original standard output nothing when execvp succeeds and exactly the
"Submission URL: %s\n" message when execvp fails.  Without -s and -w the
standard output of the whole process tree is that of the main process, so with
-c and -b alone it is the bare CDDB identifier and a newline. -/
theorem C4_brief_output_amended (env : Env) (argv : List String) (rs : List GetoptResult)
    (hrs : option_results env argv = rs)
    (hopts : ∀ r ∈ rs, continuing r.o = true)
    (hread : env.read_sparse (configured_device env argv) ≠ 0)
    (hmain : env.fork_ret ≠ 0)
    (hb : given 'b' rs = true) :
    written File.stdout (main env argv).trace
        = (if given 'm' rs || !given 'c' rs then env.id ++ "\n" else "")
          ++ (if given 'c' rs || !given 'm' rs then env.freedb_id ++ "\n" else "")
      ∧ written File.stdout (after_fork (main { env with fork_ret := 0 } argv).trace)
        = (if given 's' rs || given 'w' rs then
            (match env.execvp_error with
             | none => ""
             | some _ => sprintf (env.gettext "Submission URL: %s\n") [env.submission_url])
           else "")
      ∧ (given 's' rs = false → given 'w' rs = false →
          standard_output env argv = written File.stdout (main env argv).trace)
      ∧ (given 'c' rs = true → given 'm' rs = false → given 's' rs = false →
          given 'w' rs = false → standard_output env argv = env.freedb_id ++ "\n") := by
  subst hrs
  unfold configured_device at hread
  have h1 : written File.stdout (main env argv).trace
        = (if given 'm' (option_results env argv) || !given 'c' (option_results env argv)
            then env.id ++ "\n" else "")
          ++ (if given 'c' (option_results env argv) || !given 'm' (option_results env argv)
            then env.freedb_id ++ "\n" else "") := by
    rw [main_parent env argv _ rfl hopts hread (Or.inl hmain), hb]
    cases given 'm' (option_results env argv) <;> cases given 'c' (option_results env argv) <;>
      cases given 's' (option_results env argv) <;> cases given 'w' (option_results env argv) <;>
      simp [run_start, written, mb_line, cddb_line]
  have h2 : written File.stdout (after_fork (main { env with fork_ret := 0 } argv).trace)
        = (if given 's' (option_results env argv) || given 'w' (option_results env argv) then
            (match env.execvp_error with
             | none => ""
             | some _ => sprintf (env.gettext "Submission URL: %s\n") [env.submission_url])
           else "") :=
    child_stdout { env with fork_ret := 0 } argv _ rfl hopts hread rfl
  have h3 : given 's' (option_results env argv) = false →
      given 'w' (option_results env argv) = false →
      standard_output env argv = written File.stdout (main env argv).trace := by
    intro hs hw
    unfold standard_output
    rw [h2, hs, hw]
    simp
  refine ⟨h1, h2, h3, ?_⟩
  intro hc hm hs hw
  rw [h3 hs hw, h1, hc, hm]
  simp

/-- Witness of C4 amended: the command line -c -b prints one bare line. -/
theorem C4_brief_output_amended_witness :
    option_results sample_env ["cdidc", "-c", "-b"]
        = [{ o := 'c', optarg := "" }, { o := 'b', optarg := "" }]
      ∧ (∀ r ∈ [({ o := 'c', optarg := "" } : GetoptResult), { o := 'b', optarg := "" }],
          continuing r.o = true)
      ∧ sample_env.read_sparse (configured_device sample_env ["cdidc", "-c", "-b"]) ≠ 0
      ∧ sample_env.fork_ret ≠ 0
      ∧ given 'b' [({ o := 'c', optarg := "" } : GetoptResult), { o := 'b', optarg := "" }] = true
      ∧ standard_output sample_env ["cdidc", "-c", "-b"] = "CDDB\n" :=
  ⟨rfl, by decide, by decide, by decide, by decide,
    (C4_brief_output_amended sample_env ["cdidc", "-c", "-b"]
      [{ o := 'c', optarg := "" }, { o := 'b', optarg := "" }] rfl (by decide) (by decide)
      (by decide) (by decide)).2.2.2 (by decide) (by decide) (by decide) (by decide)⟩

/-! ## Early exits of the option loop -/

/-- C7: when the first option that does not continue the loop has no case of
its own in the switch (getopt returns a question mark for an unknown option
character and for a missing option argument), the program exits with status
255 and its standard output is the twelve lines of the usage text, each looked
up in the message catalogue: the usage line with the program name, the two
lines of description, and one line each for -d (with the default device), -c,
-m, -s, -w, -b, -v (with the version) and -h.  The program writes nothing on
standard error, and no event of the run creates, uses or releases a disc
handle, forks or calls execvp. -/
theorem C7_usage_error (env : Env) (argv : List String) (pre post : List GetoptResult)
    (r : GetoptResult) (hrs : option_results env argv = pre ++ r :: post)
    (hpre : ∀ x ∈ pre, continuing x.o = true) (hr : recognised r.o = false) :
    (main env argv).status = some 255
      ∧ (main env argv).status ≠ some 0
      ∧ written File.stdout (main env argv).trace
          = sprintf (env.gettext "Usage: %s [OPTIONS]\n") [argv.headD ""]
            ++ (env.gettext "Calculate MusicBrainz or CDDB IDs of a compact disc." ++ "\n")
            ++ (env.gettext "If neither type of ID is specified, both are printed.\n" ++ "\n")
            ++ sprintf (env.gettext "-d DEVICE   Optical disc drive to use. Defaults to %s\n")
                [env.default_device]
            ++ (env.gettext "-c          Print CDDB ID of CD" ++ "\n")
            ++ (env.gettext "-m          Print MusicBrainz Disc ID of CD" ++ "\n")
            ++ (env.gettext "-s          Submit Disc ID to MusicBrainz using the default browser"
                ++ "\n")
            ++ (env.gettext "-w BROWSER  Use BROWSER instead of the system default (implies -s)"
                ++ "\n")
            ++ (env.gettext "-b          Format the output more briefly" ++ "\n")
            ++ sprintf (env.gettext "-v          Print version (%s) information and exit\n")
                [env.VERSION]
            ++ (env.gettext "-h          Print this help message and exit" ++ "\n")
      ∧ written File.stderr (main env argv).trace = ""
      ∧ (∀ e ∈ (main env argv).trace,
          e ≠ Event.discid_new ∧ e.uses_handle = false ∧ e ≠ Event.discid_free
            ∧ e.is_fork = false ∧ e.is_execvp = false) := by
  simp only [recognised, Bool.or_eq_false_iff, decide_eq_false_iff_not] at hr
  obtain ⟨⟨hc, hv⟩, hh⟩ := hr
  have hrun := main_stop env argv pre post r hrs hpre hc
  rw [if_neg hv, if_neg hh] at hrun
  rw [hrun]
  refine ⟨rfl, by simp, ?_, ?_, ?_⟩
  · show written File.stdout (_ ++ _) = _
    rw [written_append, written_start, (print_usage_written env _).1]
    exact String.empty_append _
  · show written File.stderr (_ ++ _) = _
    rw [written_append, written_start, (print_usage_written env _).2]
    rfl
  · intro e he
    rcases List.mem_append.mp he with he | he
    · exact start_no_handle e he
    · exact usage_no_handle env _ e he

/-- Witness of C7: the command line -b -w, where -w lacks its argument, prints
the usage text of the C locale and exits with status 255. -/
theorem C7_usage_error_witness :
    option_results sample_env ["cdidc", "-b", "-w"]
        = [{ o := 'b', optarg := "" }] ++ { o := '?', optarg := "" } :: []
      ∧ (∀ x ∈ [({ o := 'b', optarg := "" } : GetoptResult)], continuing x.o = true)
      ∧ recognised ({ o := '?', optarg := "" } : GetoptResult).o = false
      ∧ (main sample_env ["cdidc", "-b", "-w"]).status = some 255
      ∧ written File.stdout (main sample_env ["cdidc", "-b", "-w"]).trace
          = "Usage: cdidc [OPTIONS]\nCalculate MusicBrainz or CDDB IDs of a compact disc.\nIf neither type of ID is specified, both are printed.\n\n-d DEVICE   Optical disc drive to use. Defaults to /dev/cdrom\n-c          Print CDDB ID of CD\n-m          Print MusicBrainz Disc ID of CD\n-s          Submit Disc ID to MusicBrainz using the default browser\n-w BROWSER  Use BROWSER instead of the system default (implies -s)\n-b          Format the output more briefly\n-v          Print version (1.0) information and exit\n-h          Print this help message and exit\n" :=
  ⟨rfl, by decide, by decide,
    (C7_usage_error sample_env ["cdidc", "-b", "-w"] [{ o := 'b', optarg := "" }] []
      { o := '?', optarg := "" } rfl (by decide) (by decide)).1,
    (C7_usage_error sample_env ["cdidc", "-b", "-w"] [{ o := 'b', optarg := "" }] []
      { o := '?', optarg := "" } rfl (by decide) (by decide)).2.2.1.trans rfl⟩

/-! ## Submission -/

/-- C5: when the option results are continuing ones and contain -w, with
argument b at its last occurrence, get_options returns with the submission flag
set and the browser command b, whether or not -s occurs.  When moreover the
read succeeds, the run fetches the submission URL and calls fork exactly once;
the child calls execvp exactly once, on b with the argument vector b, URL, and
the other process never calls execvp. -/
theorem C5_w_implies_submission (env : Env) (argv : List String)
    (pre post : List GetoptResult) (b : String)
    (hrs : option_results env argv = pre ++ { o := 'w', optarg := b } :: post)
    (hopts : ∀ r ∈ pre ++ { o := 'w', optarg := b } :: post, continuing r.o = true)
    (hlast : given 'w' post = false) :
    (∀ p : Proc, ∃ o : Options,
        get_options env argv false env.default_device false SYSTEM_BROWSER_CMD p = Ctl.ret o p
          ∧ o.flag_submit_id = true ∧ o.browser = b)
      ∧ (env.read_sparse (configured_device env argv) ≠ 0 →
          (main env argv).trace.filter Event.is_fork = [Event.fork env.fork_ret]
            ∧ Event.discid_get_submission_url ∈ (main env argv).trace
            ∧ (main env argv).trace.filter Event.is_execvp
                = if env.fork_ret = 0 then [Event.execvp b [b, env.submission_url]] else []) := by
  have hopts2 : ∀ r ∈ option_results env argv, continuing r.o = true := by
    rw [hrs]; exact hopts
  have hw : given 'w' (pre ++ { o := 'w', optarg := b } :: post) = true := by
    simp [given]
  have hb : last_arg 'w' SYSTEM_BROWSER_CMD (pre ++ { o := 'w', optarg := b } :: post) = b := by
    rw [last_arg_append]
    simp only [last_arg, if_true]
    exact last_arg_not_given 'w' b post hlast
  have hsub : (given 's' (pre ++ { o := 'w', optarg := b } :: post)
      || given 'w' (pre ++ { o := 'w', optarg := b } :: post)) = true := by
    rw [hw]; simp
  refine ⟨?_, ?_⟩
  · intro p
    rw [get_options_continuing env argv hopts2]
    refine ⟨_, rfl, ?_, ?_⟩
    · simp [hrs, hw]
    · simp only [hrs]
      exact hb
  · intro hread
    have h1 := trace_forks_once env argv _ hrs hopts hread hsub
    have h2 := trace_execvp env argv _ hrs hopts hread hsub
    rw [hb] at h2
    exact ⟨h1.1, h1.2, h2⟩

/-- Witness of C5: the command line -w firefox -c, followed in the child. -/
theorem C5_w_implies_submission_witness :
    option_results { sample_env with fork_ret := 0 } ["cdidc", "-w", "firefox", "-c"]
        = [] ++ { o := 'w', optarg := "firefox" } :: [{ o := 'c', optarg := "" }]
      ∧ (∀ r ∈ [] ++ ({ o := 'w', optarg := "firefox" } : GetoptResult)
            :: [{ o := 'c', optarg := "" }], continuing r.o = true)
      ∧ given 'w' [({ o := 'c', optarg := "" } : GetoptResult)] = false
      ∧ ({ sample_env with fork_ret := 0 } : Env).read_sparse
          (configured_device { sample_env with fork_ret := 0 }
            ["cdidc", "-w", "firefox", "-c"]) ≠ 0
      ∧ (main { sample_env with fork_ret := 0 } ["cdidc", "-w", "firefox", "-c"]).trace.filter
          Event.is_execvp = [Event.execvp "firefox" ["firefox", "URL"]] :=
  ⟨rfl, by decide, by decide, by decide,
    ((C5_w_implies_submission { sample_env with fork_ret := 0 }
      ["cdidc", "-w", "firefox", "-c"] [] [{ o := 'c', optarg := "" }] "firefox" rfl
      (by decide) (by decide)).2 (by decide)).2.2⟩

/-- C9: on a command line of continuing options with a readable disc, if -s was
given the run fetches the submission URL and calls fork exactly once; the
process in which fork does not return 0 (the main process, whether the fork
failed or not) never calls execvp and exits with status 0, whatever execvp does
in the child; the child calls execvp exactly once on the browser command with
the argument vector browser, URL, where the browser command is "xdg-open" when
no -w was given.  If neither -s nor -w was given there is no fork, no execvp
and no fetch of the submission URL. -/
theorem C9_submission (env : Env) (argv : List String) (rs : List GetoptResult)
    (hrs : option_results env argv = rs)
    (hopts : ∀ r ∈ rs, continuing r.o = true)
    (hread : env.read_sparse (configured_device env argv) ≠ 0) :
    (given 's' rs = true →
        (main env argv).trace.filter Event.is_fork = [Event.fork env.fork_ret]
          ∧ Event.discid_get_submission_url ∈ (main env argv).trace
          ∧ (env.fork_ret ≠ 0 →
              (main env argv).status = some 0
                ∧ (main env argv).trace.filter Event.is_execvp = [])
          ∧ (env.fork_ret = 0 →
              (main env argv).trace.filter Event.is_execvp
                = [Event.execvp (last_arg 'w' SYSTEM_BROWSER_CMD rs)
                    [last_arg 'w' SYSTEM_BROWSER_CMD rs, env.submission_url]])
          ∧ (given 'w' rs = false → last_arg 'w' SYSTEM_BROWSER_CMD rs = "xdg-open"))
      ∧ (given 's' rs = false → given 'w' rs = false →
          (main env argv).trace.filter Event.is_fork = []
            ∧ (main env argv).trace.filter Event.is_execvp = []
            ∧ Event.discid_get_submission_url ∉ (main env argv).trace
            ∧ (main env argv).status = some 0) := by
  refine ⟨?_, ?_⟩
  · intro hs
    have hsub : (given 's' rs || given 'w' rs) = true := by rw [hs]; rfl
    have h1 := trace_forks_once env argv rs hrs hopts hread hsub
    have h2 := trace_execvp env argv rs hrs hopts hread hsub
    refine ⟨h1.1, h1.2, ?_, ?_, ?_⟩
    · intro h0
      rw [if_neg h0] at h2
      refine ⟨?_, h2⟩
      rw [main_parent env argv rs hrs hopts hread (Or.inl h0)]
    · intro h0
      rw [if_pos h0] at h2
      exact h2
    · intro hw
      rw [last_arg_not_given 'w' SYSTEM_BROWSER_CMD rs hw]
      rfl
  · intro hs hw
    have hsub : (given 's' rs || given 'w' rs) = false := by rw [hs, hw]; rfl
    exact trace_no_launch env argv rs hrs hopts hread hsub

/-- Witness of C9: the command line -c -s in the main process. -/
theorem C9_submission_witness :
    option_results sample_env ["cdidc", "-c", "-s"]
        = [{ o := 'c', optarg := "" }, { o := 's', optarg := "" }]
      ∧ (∀ r ∈ [({ o := 'c', optarg := "" } : GetoptResult), { o := 's', optarg := "" }],
          continuing r.o = true)
      ∧ sample_env.read_sparse (configured_device sample_env ["cdidc", "-c", "-s"]) ≠ 0
      ∧ given 's' [({ o := 'c', optarg := "" } : GetoptResult), { o := 's', optarg := "" }] = true
      ∧ (main sample_env ["cdidc", "-c", "-s"]).trace.filter Event.is_fork = [Event.fork 4242] :=
  ⟨rfl, by decide, by decide, by decide,
    ((C9_submission sample_env ["cdidc", "-c", "-s"]
      [{ o := 'c', optarg := "" }, { o := 's', optarg := "" }] rfl (by decide) (by decide)).1
      (by decide)).1⟩

/-! ## Release of the disc handle -/

/-- C8: in every process that is not replaced by the browser, a run that stops
in the option loop (at -v, -h or an option without a case of its own) neither
creates nor uses nor releases a disc handle, and a run that gets past the option
loop, on the failed read as on the successful one, consists of events that
create the handle exactly once and never release it, followed by the release
as the last event: the handle is released exactly once and nothing is done
after the release. -/
theorem C8_handle_release (env : Env) (argv : List String)
    (hproc : env.fork_ret = 0 → env.execvp_error ≠ none) :
    ((∃ r ∈ option_results env argv, continuing r.o = false) →
        (main env argv).trace.filter Event.acquires = []
          ∧ (main env argv).trace.filter Event.releases = []
          ∧ (∀ e ∈ (main env argv).trace, e.uses_handle = false))
      ∧ ((∀ r ∈ option_results env argv, continuing r.o = true) →
        ∃ t, (main env argv).trace = t ++ [Event.discid_free]
          ∧ t.filter Event.acquires = [Event.discid_new]
          ∧ t.filter Event.releases = []) := by
  refine ⟨?_, ?_⟩
  · rintro ⟨r0, hr0, hc0⟩
    rcases first_stop (option_results env argv) with hall | ⟨pre, r, post, hrs, hpre, hr⟩
    · rw [hall r0 hr0] at hc0
      exact absurd hc0 (by decide)
    · have hrun := main_stop env argv pre post r hrs hpre hr
      have hnone : ∀ e ∈ (main env argv).trace,
          e ≠ Event.discid_new ∧ e.uses_handle = false ∧ e ≠ Event.discid_free
            ∧ e.is_fork = false ∧ e.is_execvp = false := by
        rw [hrun]
        by_cases hv : r.o = 'v'
        · rw [if_pos hv]
          simp [Event.uses_handle, Event.is_fork, Event.is_execvp]
        · rw [if_neg hv]
          intro e he
          rcases List.mem_append.mp he with he | he
          · exact start_no_handle e he
          · exact usage_no_handle env _ e he
      refine ⟨?_, ?_, fun e he => (hnone e he).2.1⟩
      · rw [List.filter_eq_nil_iff]
        intro e he
        have h := (hnone e he).1
        cases e <;> simp [Event.acquires] at h ⊢
      · rw [List.filter_eq_nil_iff]
        intro e he
        have h := (hnone e he).2.2.1
        cases e <;> simp [Event.releases] at h ⊢
  · intro hopts
    exact release_once env argv _ rfl hopts hproc

/-- Witness of C8: the child that failed to start the browser releases its
handle as its last event. -/
theorem C8_handle_release_witness :
    (({ no_browser_env with fork_ret := 0 } : Env).fork_ret = 0 →
        ({ no_browser_env with fork_ret := 0 } : Env).execvp_error ≠ none)
      ∧ (∀ r ∈ option_results { no_browser_env with fork_ret := 0 } ["cdidc", "-s"],
          continuing r.o = true)
      ∧ ∃ t, (main { no_browser_env with fork_ret := 0 } ["cdidc", "-s"]).trace
            = t ++ [Event.discid_free]
          ∧ t.filter Event.acquires = [Event.discid_new]
          ∧ t.filter Event.releases = [] :=
  ⟨by decide, by decide,
    (C8_handle_release { no_browser_env with fork_ret := 0 } ["cdidc", "-s"] (by decide)).2
      (by decide)⟩

/-! ## The child after a failed execvp -/

/-- C10, the code at the failing input: with -s and a browser that cannot be
started, the forked child reports the failure on the saved descriptors, closes
its descriptors, returns from launch_browser into main, fetches the CDDB
identifier, tries to print it on the closed descriptor 1, releases the disc
handle and returns 0 from main. -/
theorem C10_child_runs_on_after_failed_exec :
    main { no_browser_env with fork_ret := 0 } ["cdidc", "-s"] =
      { status := some 0
        trace := [Event.setlocale, Event.bindtextdomain, Event.textdomain,
          Event.discid_get_default_device, Event.discid_new,
          Event.discid_read_sparse "/dev/cdrom", Event.discid_get_id,
          Event.write File.stdout "Musicbrainz Disc ID: MBID\n",
          Event.discid_get_submission_url, Event.fork 0, Event.dup 1 3, Event.dup 2 4,
          Event.close 1, Event.close 2, Event.open_ "/dev/null" true 1,
          Event.open_ "/dev/null" false 2, Event.execvp "xdg-open" ["xdg-open", "URL"],
          Event.write File.stderr "cdidc: Failed to start xdg-open: No such file or directory\n",
          Event.write File.stdout "Submission URL: URL\n",
          Event.close 1, Event.close 2, Event.close 3, Event.close 4,
          Event.discid_get_freedb_id, Event.write_failed 1 "CDDB ID: CDDB\n",
          Event.discid_free] } := by
  decide

end Cdidc
